import Mathlib

/-
Verification of the MPV controller module (mpv_controller.py) of the
Headless-Pi MPV Player. The controller is embedded shallowly: the mutable
attributes of the MPVController object become a ControllerState record,
and every public operation becomes a function from the old state and an
environment record (describing the outcomes of the external effects the
operation performs: process liveness polls, socket readiness, IPC
property polls) to a result record holding the returned value, the new
state, and observable effect counters (number of IPC commands sent,
whether a process was spawned, whether the socket file was cleaned up).
Positions and durations are modelled as rationals, volume as an integer,
process handles as abstract numeric identifiers.
-/

namespace MPV

/-- PlayerState mirrors the four-variant Python enum. -/
inductive PlayerState
  | stopped
  | playing
  | paused
  | error
deriving DecidableEq

/-- PlayerState.value mirrors the .value string of the Python enum. -/
def PlayerState.value : PlayerState → String
  | .stopped => "stopped"
  | .playing => "playing"
  | .paused => "paused"
  | .error => "error"

/-- ControllerState mirrors the mutable attributes of MPVController. -/
structure ControllerState where
  state : PlayerState
  current_file : Option String
  current_position : Rat
  duration : Rat
  volume : Int
  process : Option Nat
  media_dir : String
  hdmi_output : String
deriving DecidableEq

/-- initState mirrors MPVController.__init__: state STOPPED, no file, zero
position and duration, volume 100, no process handle. -/
def initState (media_dir hdmi_output : String) : ControllerState :=
  { state := .stopped, current_file := none, current_position := 0,
    duration := 0, volume := 100, process := none,
    media_dir := media_dir, hdmi_output := hdmi_output }

/- String helpers, written structurally over character lists so that the
kernel can evaluate them on concrete inputs. -/

/-- splitCharAux splits a character list at a separator character. -/
def splitCharAux (sep : Char) : List Char → List Char → List String
  | [], acc => [String.mk acc.reverse]
  | c :: rest, acc =>
    if c = sep then String.mk acc.reverse :: splitCharAux sep rest []
    else splitCharAux sep rest (c :: acc)

/-- splitChar mirrors the Python str.split with a one-character separator. -/
def splitChar (sep : Char) (s : String) : List String :=
  splitCharAux sep s.data []

/-- isPyWhitespace holds on the characters Python str.strip removes. -/
def isPyWhitespace (c : Char) : Bool :=
  c = ' ' || c = '\t' || c = '\n' || c = '\r' || c = '\x0b' || c = '\x0c'

/-- stripStr mirrors Python str.strip(): drop whitespace from both ends. -/
def stripStr (s : String) : String :=
  String.mk (((s.data.dropWhile isPyWhitespace).reverse.dropWhile isPyWhitespace).reverse)

/-- toLowerStr mirrors Python str.lower() on ASCII text. -/
def toLowerStr (s : String) : String :=
  String.mk (s.data.map Char.toLower)

/-- containsSub decides whether the second character list occurs as a
contiguous substring of the first, mirroring the Python in operator. -/
def containsSub : List Char → List Char → Bool
  | [], pat => pat.isEmpty
  | c :: rest, pat => pat.isPrefixOf (c :: rest) || containsSub rest pat

/-- pathName mirrors pathlib.Path(p).name: the last nonempty component of
the slash-separated path. -/
def pathName (p : String) : String :=
  ((splitChar '/' p).filter (fun x => x != "")).getLastD ""

/- Core process-management helpers. -/

/-- cleanup_process mirrors MPVController._cleanup_process: the process
handle is dropped (termination details are external effects); the socket
file is also removed, which the operation results record as an effect. -/
def cleanup_process (s : ControllerState) : ControllerState :=
  { s with process := none }

/-- is_running mirrors MPVController.is_running. The Boolean argument is
the environment: whether the poll of the child process reports it alive.
With no handle it returns false and leaves the state alone; with a handle
and a dead process it tears down and forces state STOPPED. -/
def is_running (s : ControllerState) (procAlive : Bool) : Bool × ControllerState :=
  match s.process with
  | none => (false, s)
  | some _ =>
    if procAlive then (true, s)
    else (false, { (cleanup_process s) with state := .stopped })

/-- OpResult holds the returned Boolean, the new controller state, and the
number of IPC commands the operation handed to the socket send routine. -/
structure OpResult where
  ret : Bool
  st : ControllerState
  sends : Nat
deriving DecidableEq

/-- stop mirrors MPVController.stop: always tears down, resets file,
position and duration, sets state STOPPED, returns true. Volume is not
touched by the source. -/
def stop (s : ControllerState) : OpResult :=
  { ret := true,
    st := { (cleanup_process s) with
            state := .stopped, current_file := none,
            current_position := 0, duration := 0 },
    sends := 0 }

/-- waitForSocket mirrors the for-else polling loop in play: starting at
the given attempt index with the given remaining budget, it reports
whether the socket file was seen to exist at some polled attempt. -/
def waitForSocket (ready : Nat → Bool) : Nat → Nat → Bool
  | _, 0 => false
  | attempt, fuel + 1 =>
    if ready attempt then true else waitForSocket ready (attempt + 1) fuel

/-- socketReadyWithin runs the readiness poll from attempt 0 with the
given maximum attempt budget (20 in the source). -/
def socketReadyWithin (ready : Nat → Bool) (maxAttempts : Nat) : Bool :=
  waitForSocket ready 0 maxAttempts

/-- PlayEnv describes the external world during one play call: whether
the existing child (if any) polls alive, whether the target file exists,
whether spawning raises, the handle of the spawned process, at which poll
attempts the socket file exists, and the result of the duration poll. -/
structure PlayEnv where
  procAlive : Bool
  fileExists : Bool
  spawnRaises : Bool
  spawnHandle : Nat
  socketReady : Nat → Bool
  durationPoll : Option Rat

/-- PlayResult extends OpResult with effect flags for play: whether a new
process was spawned and whether the socket file was cleaned up. -/
structure PlayResult where
  ret : Bool
  st : ControllerState
  sends : Nat
  spawned : Bool
  socketCleaned : Bool

/-- play mirrors MPVController.play. It validates that the file exists,
stops any running playback, spawns the player, waits for the socket with
a 20-attempt budget (tearing down and returning false on timeout), then
sets state PLAYING, records the file name, polls duration with a
zero default, and returns true. Any exception during the attempt (here:
the spawn raising) tears down and sets state ERROR. -/
def play (s : ControllerState) (file_path : String) (env : PlayEnv) : PlayResult :=
  if env.fileExists = false then
    { ret := false, st := s, sends := 0, spawned := false, socketCleaned := false }
  else
    let r := is_running s env.procAlive
    let s2 := if r.1 then (stop r.2).st else r.2
    if env.spawnRaises then
      { ret := false, st := { (cleanup_process s2) with state := .error },
        sends := 0, spawned := false, socketCleaned := true }
    else
      let s3 := { s2 with process := some env.spawnHandle }
      if socketReadyWithin env.socketReady 20 = false then
        { ret := false, st := cleanup_process s3, sends := 0,
          spawned := true, socketCleaned := true }
      else
        let d := match env.durationPoll with
          | some d => d
          | none => 0
        { ret := true,
          st := { s3 with
                  state := .playing,
                  current_file := some (pathName file_path), duration := d },
          sends := 1, spawned := true, socketCleaned := false }

/-- PauseEnv: liveness poll result, result of the pause-property poll
(none when the IPC call yields no data), and whether the set succeeds. -/
structure PauseEnv where
  procAlive : Bool
  pausePoll : Option Bool
  setOk : Bool

/-- pause mirrors MPVController.pause: false with no IPC when not
running; otherwise polls the pause flag, sets its inverse, and on success
flips the cached state (a poll yielding no data counts as not paused,
as Python negation of None yields True). -/
def pause (s : ControllerState) (env : PauseEnv) : OpResult :=
  let r := is_running s env.procAlive
  if r.1 then
    let isPaused := env.pausePoll.getD false
    if env.setOk then
      { ret := true,
        st := { r.2 with state := if isPaused then .playing else .paused },
        sends := 2 }
    else { ret := false, st := r.2, sends := 2 }
  else { ret := false, st := r.2, sends := 0 }

/-- ResumeEnv: liveness poll result and whether the property set succeeds. -/
structure ResumeEnv where
  procAlive : Bool
  setOk : Bool

/-- resume mirrors MPVController.resume: false with no IPC when not
running; otherwise force-sets the pause flag false and on success sets
cached state PLAYING. -/
def resume (s : ControllerState) (env : ResumeEnv) : OpResult :=
  let r := is_running s env.procAlive
  if r.1 then
    if env.setOk then
      { ret := true, st := { r.2 with state := .playing }, sends := 1 }
    else { ret := false, st := r.2, sends := 1 }
  else { ret := false, st := r.2, sends := 0 }

/-- SeekEnv: liveness poll result and whether the seek IPC command
returned a success response. -/
structure SeekEnv where
  procAlive : Bool
  seekOk : Bool

/-- skip mirrors MPVController.skip: false with no IPC when not running;
otherwise sends a relative seek, and on success additionally sends a
best-effort audio-resync command. -/
def skip (s : ControllerState) (seconds : Rat) (env : SeekEnv) : OpResult :=
  let r := is_running s env.procAlive
  if r.1 then
    if env.seekOk then { ret := true, st := r.2, sends := 2 }
    else { ret := false, st := r.2, sends := 1 }
  else { ret := false, st := r.2, sends := 0 }

/-- seek mirrors MPVController.seek: same shape as skip with an absolute
seek command. -/
def seek (s : ControllerState) (position : Rat) (env : SeekEnv) : OpResult :=
  let r := is_running s env.procAlive
  if r.1 then
    if env.seekOk then { ret := true, st := r.2, sends := 2 }
    else { ret := false, st := r.2, sends := 1 }
  else { ret := false, st := r.2, sends := 0 }

/-- VolumeEnv: liveness poll result and whether the property set succeeds. -/
structure VolumeEnv where
  procAlive : Bool
  setOk : Bool

/-- set_volume mirrors MPVController.set_volume: false with no IPC when
not running; otherwise sets the volume property and on success caches the
new level (any integer is forwarded unchecked). -/
def set_volume (s : ControllerState) (level : Int) (env : VolumeEnv) : OpResult :=
  let r := is_running s env.procAlive
  if r.1 then
    if env.setOk then
      { ret := true, st := { r.2 with volume := level }, sends := 1 }
    else { ret := false, st := r.2, sends := 1 }
  else { ret := false, st := r.2, sends := 0 }

/-- HdmiEnv bundles the environments of the inner calls made by
set_hdmi_output: the liveness poll, the play attempt, and the re-seek. -/
structure HdmiEnv where
  procAlive : Bool
  playEnv : PlayEnv
  seekEnv : SeekEnv

/-- set_hdmi_output mirrors MPVController.set_hdmi_output: records the
selector; if running with a (truthy) current file, captures the position,
stops, restarts the same file, and re-seeks when the captured position
was positive, returning the restart result. -/
def set_hdmi_output (s : ControllerState) (output : String) (env : HdmiEnv) : OpResult :=
  let s0 := { s with hdmi_output := output }
  let r := is_running s0 env.procAlive
  if r.1 && (r.2.current_file.getD "") != "" then
    let current_pos := r.2.current_position
    let fp := r.2.media_dir ++ "/" ++ r.2.current_file.getD ""
    let s1 := (stop r.2).st
    let pr := play s1 fp env.playEnv
    if pr.ret && decide (current_pos > 0) then
      let sr := seek pr.st current_pos env.seekEnv
      { ret := pr.ret, st := sr.st, sends := pr.sends + sr.sends }
    else { ret := pr.ret, st := pr.st, sends := pr.sends }
  else { ret := true, st := r.2, sends := 0 }

/-- Snapshot mirrors the dictionary returned by get_status. -/
structure Snapshot where
  state : String
  current_file : Option String
  position : Rat
  duration : Rat
  volume : Int
  is_paused : Bool
deriving DecidableEq

/-- StatusEnv: liveness poll result, the time-pos poll result and the
pause poll result (none models an IPC call that yields no data). -/
structure StatusEnv where
  procAlive : Bool
  timePos : Option Rat
  pausePoll : Option Bool

/-- StatusResult: the returned snapshot, the new controller state, and
the number of IPC commands sent. -/
structure StatusResult where
  snap : Snapshot
  st : ControllerState
  sends : Nat

/-- get_status mirrors MPVController.get_status: the snapshot is first
built from the cached state with position 0 and is_paused false; then,
only when the liveness check passes, the position and pause polls
overwrite the corresponding snapshot fields (and the cached state) when
they return data. -/
def get_status (s : ControllerState) (env : StatusEnv) : StatusResult :=
  let status0 : Snapshot :=
    { state := s.state.value, current_file := s.current_file, position := 0,
      duration := s.duration, volume := s.volume, is_paused := false }
  let r := is_running s env.procAlive
  if r.1 then
    let snap1 := match env.timePos with
      | some p => { status0 with position := p }
      | none => status0
    let s2 := match env.timePos with
      | some p => { r.2 with current_position := p }
      | none => r.2
    match env.pausePoll with
    | some b =>
      { snap := { snap1 with
                  is_paused := b,
                  state := (if b then PlayerState.paused else PlayerState.playing).value },
        st := { s2 with state := if b then .paused else .playing },
        sends := 2 }
    | none => { snap := snap1, st := s2, sends := 2 }
  else { snap := status0, st := r.2, sends := 0 }

/- IPC client: _send_command. -/

/-- JsonVal is a small model of the JSON payloads carried by IPC data
fields. -/
inductive JsonVal
  | null
  | bool (b : Bool)
  | num (q : Rat)
  | str (s : String)
deriving DecidableEq

/-- MPVResponse models the parsed JSON response dictionary: an optional
error field and an optional data field. -/
structure MPVResponse where
  error : Option String
  data : Option JsonVal
deriving DecidableEq

/-- IpcOutcome describes how one socket exchange ends: a connect or IO
timeout, another IO error, a connection that closes with no data, bytes
that fail to parse as JSON, or a parsed response. -/
inductive IpcOutcome
  | timeout
  | ioError
  | noData
  | parseError
  | ok (r : MPVResponse)
deriving DecidableEq

/-- IPCEnv: whether the socket file exists, and how the exchange ends if
one is attempted. -/
structure IPCEnv where
  socketExists : Bool
  outcome : IpcOutcome
deriving DecidableEq

/-- send_command mirrors MPVController._send_command: it fails fast with
none when the socket path does not exist, degrades every timeout, IO
error, empty response and parse failure to none, and otherwise returns
the parsed response. It never raises: its only outcomes are some parsed
response or none. -/
def send_command (env : IPCEnv) (command : List JsonVal) : Option MPVResponse :=
  if env.socketExists = false then none
  else
    match env.outcome with
    | .timeout => none
    | .ioError => none
    | .noData => none
    | .parseError => none
    | .ok r => some r

/- Audio device detector: _detect_hdmi_audio. -/

/-- DetectEnv: whether the enumeration subprocess raises (this includes
the 5-second timeout expiring), and the stdout text it produces
otherwise. -/
structure DetectEnv where
  raises : Bool
  stdout : String
deriving DecidableEq

/-- lineMatchesHdmi mirrors the membership test of the source: the
lowercased line contains vc4hdmi or contains hdmi. -/
def lineMatchesHdmi (line : String) : Bool :=
  containsSub (toLowerStr line).data "vc4hdmi".data ||
    containsSub (toLowerStr line).data "hdmi".data

/-- startsWithFourSpaces mirrors line.startswith of four spaces. -/
def startsWithFourSpaces (line : String) : Bool :=
  "    ".data.isPrefixOf line.data

/-- detectScan mirrors the line loop of _detect_hdmi_audio: the first
matching line that is not four-space indented and strips to nonempty
text yields the alsa-prefixed device; if the loop finishes, the fallback
alsa/default is returned. -/
def detectScan : List String → Option String
  | [] => some "alsa/default"
  | line :: rest =>
    if lineMatchesHdmi line then
      if startsWithFourSpaces line then detectScan rest
      else
        if stripStr line = "" then detectScan rest
        else some ("alsa/" ++ stripStr line)
    else detectScan rest

/-- detect_hdmi_audio mirrors MPVController._detect_hdmi_audio: none on
any exception (including the enumeration timeout), otherwise the result
of scanning the newline-separated stdout lines. -/
def detect_hdmi_audio (env : DetectEnv) : Option String :=
  if env.raises then none
  else detectScan (splitChar '\n' env.stdout)

/-- goodHdmiLine characterizes the lines on which detectScan stops: an
HDMI match that is not a four-space-indented continuation line and whose
stripped text is nonempty. -/
def goodHdmiLine (line : String) : Bool :=
  lineMatchesHdmi line && !(startsWithFourSpaces line) && (stripStr line != "")

/- Reachability and the process-handle invariant. -/

/-- Inv is the process-handle invariant of the data model: the cached
state is PLAYING only while a process handle is held. -/
def Inv (s : ControllerState) : Prop :=
  s.state = .playing → s.process ≠ none

/-- Reachable holds of every controller state that some sequence of
public operations, starting from a freshly initialized controller, can
produce. -/
inductive Reachable : ControllerState → Prop
  | init (md ho : String) : Reachable (initState md ho)
  | step_play (s : ControllerState) (p : String) (env : PlayEnv) :
      Reachable s → Reachable (play s p env).st
  | step_pause (s : ControllerState) (env : PauseEnv) :
      Reachable s → Reachable (pause s env).st
  | step_resume (s : ControllerState) (env : ResumeEnv) :
      Reachable s → Reachable (resume s env).st
  | step_stop (s : ControllerState) :
      Reachable s → Reachable (stop s).st
  | step_skip (s : ControllerState) (q : Rat) (env : SeekEnv) :
      Reachable s → Reachable (skip s q env).st
  | step_seek (s : ControllerState) (q : Rat) (env : SeekEnv) :
      Reachable s → Reachable (seek s q env).st
  | step_set_volume (s : ControllerState) (l : Int) (env : VolumeEnv) :
      Reachable s → Reachable (set_volume s l env).st
  | step_set_hdmi_output (s : ControllerState) (o : String) (env : HdmiEnv) :
      Reachable s → Reachable (set_hdmi_output s o env).st
  | step_is_running (s : ControllerState) (b : Bool) :
      Reachable s → Reachable (is_running s b).2
  | step_get_status (s : ControllerState) (env : StatusEnv) :
      Reachable s → Reachable (get_status s env).st

theorem inv_initState (md ho : String) : Inv (initState md ho) := by
  intro h
  simp [initState] at h

theorem is_running_true (s : ControllerState) (pa : Bool)
    (h : (is_running s pa).1 = true) :
    (is_running s pa).2 = s ∧ s.process ≠ none := by
  unfold is_running at *
  cases hp : s.process with
  | none => simp [hp] at h
  | some p =>
    cases pa with
    | true => simp [hp]
    | false => simp [hp] at h

theorem inv_is_running (s : ControllerState) (pa : Bool) (h : Inv s) :
    Inv (is_running s pa).2 := by
  unfold is_running
  cases hp : s.process with
  | none => simpa [hp] using h
  | some p =>
    cases pa with
    | true => simpa [hp] using h
    | false =>
      intro hc
      simp [hp, cleanup_process] at hc

theorem inv_stop (s : ControllerState) : Inv (stop s).st := by
  intro hc
  simp [stop, cleanup_process] at hc

theorem state_after_stopcheck (s : ControllerState) (pa : Bool) (h : Inv s) :
    (if (is_running s pa).1 then (stop (is_running s pa).2).st
     else (is_running s pa).2).state ≠ PlayerState.playing := by
  cases hp : s.process with
  | none =>
    have hns : s.state ≠ .playing := fun hs => (h hs) hp
    simpa [is_running, hp] using hns
  | some p =>
    cases pa with
    | true => simp [is_running, hp, stop, cleanup_process]
    | false => simp [is_running, hp, cleanup_process]

theorem inv_play (s : ControllerState) (p : String) (env : PlayEnv) (h : Inv s) :
    Inv (play s p env).st := by
  unfold play
  by_cases hf : env.fileExists = false
  · simpa [hf] using h
  · cases hr : env.spawnRaises with
    | true =>
      intro hc
      simp [hf, hr, cleanup_process] at hc
    | false =>
      cases hw : socketReadyWithin env.socketReady 20 with
      | false =>
        intro hc
        exfalso
        have hns := state_after_stopcheck s env.procAlive h
        simp [hf, hr, hw, cleanup_process] at hc
        exact hns hc
      | true =>
        intro _
        simp [hf, hr, hw]

theorem inv_pause (s : ControllerState) (env : PauseEnv) (h : Inv s) :
    Inv (pause s env).st := by
  unfold pause
  cases hr : (is_running s env.procAlive).1 with
  | false => simpa [hr] using inv_is_running s env.procAlive h
  | true =>
    obtain ⟨heq, hproc⟩ := is_running_true s env.procAlive hr
    cases hok : env.setOk with
    | false => simpa [hr, hok] using inv_is_running s env.procAlive h
    | true =>
      intro hps
      cases hc : env.pausePoll.getD false with
      | true => simpa [hr, hok, heq] using hproc
      | false => simp [hr, hok, hc] at hps

theorem inv_resume (s : ControllerState) (env : ResumeEnv) (h : Inv s) :
    Inv (resume s env).st := by
  unfold resume
  cases hr : (is_running s env.procAlive).1 with
  | false => simpa [hr] using inv_is_running s env.procAlive h
  | true =>
    obtain ⟨heq, hproc⟩ := is_running_true s env.procAlive hr
    cases hok : env.setOk with
    | false => simpa [hr, hok] using inv_is_running s env.procAlive h
    | true =>
      intro _
      simpa [hr, hok, heq] using hproc

theorem inv_skip (s : ControllerState) (q : Rat) (env : SeekEnv) (h : Inv s) :
    Inv (skip s q env).st := by
  unfold skip
  cases hr : (is_running s env.procAlive).1 with
  | false => simpa [hr] using inv_is_running s env.procAlive h
  | true =>
    cases hok : env.seekOk with
    | false => simpa [hr, hok] using inv_is_running s env.procAlive h
    | true => simpa [hr, hok] using inv_is_running s env.procAlive h

theorem inv_seek (s : ControllerState) (q : Rat) (env : SeekEnv) (h : Inv s) :
    Inv (seek s q env).st := by
  unfold seek
  cases hr : (is_running s env.procAlive).1 with
  | false => simpa [hr] using inv_is_running s env.procAlive h
  | true =>
    cases hok : env.seekOk with
    | false => simpa [hr, hok] using inv_is_running s env.procAlive h
    | true => simpa [hr, hok] using inv_is_running s env.procAlive h

theorem inv_set_volume (s : ControllerState) (l : Int) (env : VolumeEnv) (h : Inv s) :
    Inv (set_volume s l env).st := by
  unfold set_volume
  cases hr : (is_running s env.procAlive).1 with
  | false => simpa [hr] using inv_is_running s env.procAlive h
  | true =>
    cases hok : env.setOk with
    | false => simpa [hr, hok] using inv_is_running s env.procAlive h
    | true =>
      have hi := inv_is_running s env.procAlive h
      intro hps
      simp [hr, hok] at hps ⊢
      exact hi hps

theorem inv_get_status (s : ControllerState) (env : StatusEnv) (h : Inv s) :
    Inv (get_status s env).st := by
  unfold get_status
  cases hr : (is_running s env.procAlive).1 with
  | false => simpa [hr] using inv_is_running s env.procAlive h
  | true =>
    obtain ⟨heq, hproc⟩ := is_running_true s env.procAlive hr
    cases hp : env.pausePoll with
    | none =>
      cases ht : env.timePos with
      | none => simpa [hr, hp, ht] using inv_is_running s env.procAlive h
      | some q =>
        intro hps
        simp [hr, hp, ht, heq] at hps ⊢
        exact fun hn => hproc hn
    | some b =>
      cases ht : env.timePos with
      | none =>
        intro hps
        cases b with
        | true => simp [hr, hp, ht] at hps
        | false => simpa [hr, hp, ht, heq] using hproc
      | some q =>
        intro hps
        cases b with
        | true => simp [hr, hp, ht] at hps
        | false => simpa [hr, hp, ht, heq] using hproc

theorem inv_hdmi_field (s : ControllerState) (o : String) (h : Inv s) :
    Inv { s with hdmi_output := o } := h

theorem inv_set_hdmi_output (s : ControllerState) (o : String) (env : HdmiEnv)
    (h : Inv s) : Inv (set_hdmi_output s o env).st := by
  unfold set_hdmi_output
  have h0 : Inv { s with hdmi_output := o } := inv_hdmi_field s o h
  have h1 : Inv (is_running { s with hdmi_output := o } env.procAlive).2 :=
    inv_is_running _ env.procAlive h0
  cases hr : (is_running { s with hdmi_output := o } env.procAlive).1 with
  | false => simpa [hr] using h1
  | true =>
    cases hcf : ((is_running { s with hdmi_output := o } env.procAlive).2.current_file.getD "" != "") with
    | false => simpa [hr, hcf] using h1
    | true =>
      have h2 := inv_stop (is_running { s with hdmi_output := o } env.procAlive).2
      have h3 := inv_play _
        ((is_running { s with hdmi_output := o } env.procAlive).2.media_dir ++ "/" ++
          (is_running { s with hdmi_output := o } env.procAlive).2.current_file.getD "")
        env.playEnv h2
      cases hpr : ((play (stop (is_running { s with hdmi_output := o } env.procAlive).2).st
          ((is_running { s with hdmi_output := o } env.procAlive).2.media_dir ++ "/" ++
            (is_running { s with hdmi_output := o } env.procAlive).2.current_file.getD "")
          env.playEnv).ret &&
            decide ((is_running { s with hdmi_output := o } env.procAlive).2.current_position > 0)) with
      | false => simpa [hr, hcf, hpr] using h3
      | true =>
        have h4 := inv_seek _
          (is_running { s with hdmi_output := o } env.procAlive).2.current_position
          env.seekEnv h3
        simpa [hr, hcf, hpr] using h4

theorem reachable_inv (s : ControllerState) (h : Reachable s) : Inv s := by
  induction h with
  | init md ho => exact inv_initState md ho
  | step_play s p env _ ih => exact inv_play s p env ih
  | step_pause s env _ ih => exact inv_pause s env ih
  | step_resume s env _ ih => exact inv_resume s env ih
  | step_stop s _ ih => exact inv_stop s
  | step_skip s q env _ ih => exact inv_skip s q env ih
  | step_seek s q env _ ih => exact inv_seek s q env ih
  | step_set_volume s l env _ ih => exact inv_set_volume s l env ih
  | step_set_hdmi_output s o env _ ih => exact inv_set_hdmi_output s o env ih
  | step_is_running s b _ ih => exact inv_is_running s b ih
  | step_get_status s env _ ih => exact inv_get_status s env ih

theorem stopcheck_of_stopped (s : ControllerState) (pa : Bool)
    (hs : s.state = .stopped) :
    (if (is_running s pa).1 then (stop (is_running s pa).2).st
     else (is_running s pa).2).state = PlayerState.stopped := by
  cases hp : s.process with
  | none => simpa [is_running, hp] using hs
  | some p =>
    cases pa with
    | true => simp [is_running, hp, stop, cleanup_process]
    | false => simp [is_running, hp, cleanup_process]

/- Concrete states and environments used by the closed theorems below. -/

/-- timeoutEnv: the target file exists, spawning succeeds, but the socket
file never appears within the polling budget. -/
def timeoutEnv : PlayEnv :=
  { procAlive := false, fileExists := true, spawnRaises := false,
    spawnHandle := 7, socketReady := fun _ => false, durationPoll := none }

/-- readyEnv: the target file exists, spawning succeeds, the socket is
ready immediately, and the duration poll yields 90 seconds. -/
def readyEnv : PlayEnv :=
  { procAlive := false, fileExists := true, spawnRaises := false,
    spawnHandle := 7, socketReady := fun _ => true, durationPoll := some 90 }

/-- missingEnv is readyEnv except that the target file does not exist. -/
def missingEnv : PlayEnv :=
  { readyEnv with fileExists := false }

/-- s50 is a mid-playback controller state with non-default cached
fields: volume 50, a current file, a nonzero position and duration, and
a held process handle. -/
def s50 : ControllerState :=
  { state := .playing, current_file := some "a.mp4", current_position := 3,
    duration := 42, volume := 50, process := some 1,
    media_dir := "m", hdmi_output := "auto" }

/-- deadStatusEnv: the liveness poll reports the child process dead. -/
def deadStatusEnv : StatusEnv :=
  { procAlive := false, timePos := some 9, pausePoll := some true }

/- Claim theorems. -/

/-- C1 counterexample: starting from the initial Stopped state, a play
call that fails because the socket never becomes ready within the
20-attempt budget returns false but leaves the state Stopped, not Error,
refuting the claim that every failing play from Stopped ends in Error. -/
theorem C1_counterexample :
    (initState "m" "auto").state = PlayerState.stopped ∧
    (play (initState "m" "auto") "a.mp4" timeoutEnv).ret = false ∧
    (play (initState "m" "auto") "a.mp4" timeoutEnv).st.state ≠ PlayerState.error := by
  refine ⟨rfl, by decide, by decide⟩

/-- C1 amended: a play call that starts from Stopped and fails leaves the
state Error exactly when the failure came from an internal exception
during the attempt; failures from the missing-file check or from the
socket-readiness timeout leave the state Stopped. -/
theorem C1_play_failure_from_stopped (s : ControllerState) (p : String)
    (env : PlayEnv) (hs : s.state = .stopped)
    (hfail : (play s p env).ret = false) :
    (play s p env).st.state =
      (if env.fileExists && env.spawnRaises then PlayerState.error
       else PlayerState.stopped) := by
  cases hf : env.fileExists with
  | false => simpa [play, hf] using hs
  | true =>
    cases hr : env.spawnRaises with
    | true => simp [play, hf, hr, cleanup_process]
    | false =>
      cases hw : socketReadyWithin env.socketReady 20 with
      | true => simp [play, hf, hr, hw] at hfail
      | false =>
        have hcheck := stopcheck_of_stopped s env.procAlive hs
        simp [play, hf, hr, hw, cleanup_process]
        simpa using hcheck

/-- C1 witness: the amended statement applied to a concrete failing
socket-timeout attempt from the initial state. -/
theorem C1_play_failure_from_stopped_witness :
    (play (initState "m" "auto") "a.mp4" timeoutEnv).st.state =
      (if timeoutEnv.fileExists && timeoutEnv.spawnRaises then PlayerState.error
       else PlayerState.stopped) :=
  C1_play_failure_from_stopped (initState "m" "auto") "a.mp4" timeoutEnv rfl (by decide)

/-- C2 counterexample: stop leaves the cached volume at 50, not at its
default 100; and the process-death teardown of is_running transitions the
state to Stopped while leaving the cached current file and duration
untouched. Both refute the claimed reset-exactly-on-Stopped discipline. -/
theorem C2_counterexample :
    ((stop s50).st.state = PlayerState.stopped ∧ (stop s50).st.volume = 50) ∧
    ((is_running s50 false).2.state = PlayerState.stopped ∧
     (is_running s50 false).2.current_file = some "a.mp4" ∧
     (is_running s50 false).2.duration = 42) := by
  decide

/-- C2 amended: stop resets currentFile, currentPosition and duration to
their defaults and sets state Stopped, but leaves volume unchanged; the
process-death teardown inside is_running sets state Stopped without
resetting currentFile, duration or volume. -/
theorem C2_reset_on_stop (s : ControllerState) (p : Nat) (hp : s.process = some p) :
    (stop s).st.state = PlayerState.stopped ∧
    (stop s).st.current_file = none ∧
    (stop s).st.current_position = 0 ∧
    (stop s).st.duration = 0 ∧
    (stop s).st.volume = s.volume ∧
    (is_running s false).2.state = PlayerState.stopped ∧
    (is_running s false).2.current_file = s.current_file ∧
    (is_running s false).2.duration = s.duration ∧
    (is_running s false).2.volume = s.volume := by
  refine ⟨rfl, rfl, rfl, rfl, rfl, ?_, ?_, ?_, ?_⟩ <;>
    simp [is_running, hp, cleanup_process]

/-- C2 witness: the amended statement applied to the concrete state s50. -/
theorem C2_reset_on_stop_witness :
    (stop s50).st.state = PlayerState.stopped ∧
    (stop s50).st.current_file = none ∧
    (stop s50).st.current_position = 0 ∧
    (stop s50).st.duration = 0 ∧
    (stop s50).st.volume = s50.volume ∧
    (is_running s50 false).2.state = PlayerState.stopped ∧
    (is_running s50 false).2.current_file = s50.current_file ∧
    (is_running s50 false).2.duration = s50.duration ∧
    (is_running s50 false).2.volume = s50.volume :=
  C2_reset_on_stop s50 1 rfl

/-- C3: from every reachable starting state, when the target file exists,
the spawn does not raise, and the socket never becomes ready within the
20-attempt budget, play returns false, the resulting state is not
Playing, the process handle is None, and the socket file was cleaned up. -/
theorem C3_socket_timeout (s : ControllerState) (p : String) (env : PlayEnv)
    (hreach : Reachable s) (hf : env.fileExists = true)
    (hnr : env.spawnRaises = false)
    (hw : socketReadyWithin env.socketReady 20 = false) :
    (play s p env).ret = false ∧
    (play s p env).st.state ≠ PlayerState.playing ∧
    (play s p env).st.process = none ∧
    (play s p env).socketCleaned = true := by
  have h := reachable_inv s hreach
  have hns := state_after_stopcheck s env.procAlive h
  refine ⟨?_, ?_, ?_, ?_⟩
  · simp [play, hf, hnr, hw]
  · intro hc
    simp [play, hf, hnr, hw, cleanup_process] at hc
    exact hns hc
  · simp [play, hf, hnr, hw, cleanup_process]
  · simp [play, hf, hnr, hw]

/-- C3 witness: the statement applied to the freshly initialized
controller with a never-ready socket. -/
theorem C3_socket_timeout_witness :
    (play (initState "m" "auto") "a.mp4" timeoutEnv).ret = false ∧
    (play (initState "m" "auto") "a.mp4" timeoutEnv).st.state ≠ PlayerState.playing ∧
    (play (initState "m" "auto") "a.mp4" timeoutEnv).st.process = none ∧
    (play (initState "m" "auto") "a.mp4" timeoutEnv).socketCleaned = true :=
  C3_socket_timeout (initState "m" "auto") "a.mp4" timeoutEnv
    (Reachable.init "m" "auto") rfl rfl (by decide)

/-- C4: in every controller state whose liveness check comes out false,
skip, seek, pause, resume and set_volume all return false and hand no
command at all to the IPC send routine. -/
theorem C4_no_ipc_when_not_running (s : ControllerState) (pa : Bool)
    (secs pos : Rat) (lvl : Int) (pp : Option Bool) (b1 b2 b3 b4 b5 : Bool)
    (h : (is_running s pa).1 = false) :
    (skip s secs { procAlive := pa, seekOk := b1 }).ret = false ∧
    (skip s secs { procAlive := pa, seekOk := b1 }).sends = 0 ∧
    (seek s pos { procAlive := pa, seekOk := b2 }).ret = false ∧
    (seek s pos { procAlive := pa, seekOk := b2 }).sends = 0 ∧
    (pause s { procAlive := pa, pausePoll := pp, setOk := b3 }).ret = false ∧
    (pause s { procAlive := pa, pausePoll := pp, setOk := b3 }).sends = 0 ∧
    (resume s { procAlive := pa, setOk := b4 }).ret = false ∧
    (resume s { procAlive := pa, setOk := b4 }).sends = 0 ∧
    (set_volume s lvl { procAlive := pa, setOk := b5 }).ret = false ∧
    (set_volume s lvl { procAlive := pa, setOk := b5 }).sends = 0 := by
  simp [skip, seek, pause, resume, set_volume, h]

/-- C4 witness: the statement applied to the freshly initialized
controller, whose liveness check is false because it holds no handle. -/
theorem C4_no_ipc_when_not_running_witness :
    (skip (initState "m" "auto") 30 { procAlive := true, seekOk := true }).ret = false ∧
    (skip (initState "m" "auto") 30 { procAlive := true, seekOk := true }).sends = 0 ∧
    (seek (initState "m" "auto") 5 { procAlive := true, seekOk := true }).ret = false ∧
    (seek (initState "m" "auto") 5 { procAlive := true, seekOk := true }).sends = 0 ∧
    (pause (initState "m" "auto") { procAlive := true, pausePoll := some false, setOk := true }).ret = false ∧
    (pause (initState "m" "auto") { procAlive := true, pausePoll := some false, setOk := true }).sends = 0 ∧
    (resume (initState "m" "auto") { procAlive := true, setOk := true }).ret = false ∧
    (resume (initState "m" "auto") { procAlive := true, setOk := true }).sends = 0 ∧
    (set_volume (initState "m" "auto") 80 { procAlive := true, setOk := true }).ret = false ∧
    (set_volume (initState "m" "auto") 80 { procAlive := true, setOk := true }).sends = 0 :=
  C4_no_ipc_when_not_running (initState "m" "auto") true 30 5 80 (some false)
    true true true true true rfl

/-- C5: stop always returns true and resets state, current file, position
and duration, from every starting state including one with nothing
running; and stop is idempotent, a second call producing the identical
result. -/
theorem C5_stop_idempotent (s : ControllerState) :
    (stop s).ret = true ∧ (stop s).st.state = PlayerState.stopped ∧
    (stop s).st.current_file = none ∧ (stop s).st.current_position = 0 ∧
    (stop s).st.duration = 0 ∧ stop ((stop s).st) = stop s :=
  ⟨rfl, rfl, rfl, rfl, rfl, rfl⟩

/-- C6: get_status while not running reports position 0 and not paused
regardless of cached values; while running, it overwrites position,
pause flag and state from polled values exactly when the corresponding
poll returns data, keeping the defaults and the cached state field when
a poll yields nothing. -/
theorem C6_get_status (s : ControllerState) (env : StatusEnv) :
    ((is_running s env.procAlive).1 = false →
      (get_status s env).snap.position = 0 ∧
      (get_status s env).snap.is_paused = false) ∧
    ((is_running s env.procAlive).1 = true →
      (∀ q, env.timePos = some q → (get_status s env).snap.position = q) ∧
      (env.timePos = none → (get_status s env).snap.position = 0) ∧
      (∀ b, env.pausePoll = some b →
        (get_status s env).snap.is_paused = b ∧
        (get_status s env).snap.state =
          (if b then PlayerState.paused else PlayerState.playing).value ∧
        (get_status s env).st.state =
          (if b then PlayerState.paused else PlayerState.playing)) ∧
      (env.pausePoll = none →
        (get_status s env).snap.is_paused = false ∧
        (get_status s env).snap.state = s.state.value)) := by
  constructor
  · intro h
    simp [get_status, h]
  · intro h
    refine ⟨fun q hq => ?_, fun hq => ?_, fun b hb => ?_, fun hb => ?_⟩
    · cases hp : env.pausePoll <;> simp [get_status, h, hq, hp]
    · cases hp : env.pausePoll <;> simp [get_status, h, hq, hp]
    · cases ht : env.timePos <;> cases b <;> simp [get_status, h, hb, ht]
    · cases ht : env.timePos <;> simp [get_status, h, hb, ht]

/-- C6 witness: the statement applied once to a not-running controller
with non-default cached position, and once to a running one whose polls
both return data. -/
theorem C6_get_status_witness :
    ((get_status (initState "m" "auto")
        { procAlive := true, timePos := some 4, pausePoll := some true }).snap.position = 0 ∧
      (get_status (initState "m" "auto")
        { procAlive := true, timePos := some 4, pausePoll := some true }).snap.is_paused = false) ∧
    (get_status s50 { procAlive := true, timePos := some 12, pausePoll := some true }).snap.position = 12 ∧
    (get_status s50 { procAlive := true, timePos := some 12, pausePoll := some true }).snap.is_paused = true := by
  refine ⟨(C6_get_status (initState "m" "auto") _).1 (by decide), ?_, ?_⟩
  · exact ((C6_get_status s50 _).2 (by decide)).1 12 rfl
  · exact (((C6_get_status s50 _).2 (by decide)).2.2.1 true rfl).1

/-- C7: the IPC send returns none whenever the socket path does not
exist, whenever the 2-second timeout elapses, and on every other IO,
empty-response or JSON-parse failure; its only outcomes are none or a
parsed response, obtained exactly when the socket exists and the
exchange parses. -/
theorem C7_send_command (env : IPCEnv) (cmd : List JsonVal) :
    (env.socketExists = false → send_command env cmd = none) ∧
    (env.outcome = IpcOutcome.timeout → send_command env cmd = none) ∧
    (env.outcome = IpcOutcome.ioError → send_command env cmd = none) ∧
    (env.outcome = IpcOutcome.noData → send_command env cmd = none) ∧
    (env.outcome = IpcOutcome.parseError → send_command env cmd = none) ∧
    (send_command env cmd = none ∨
      ∃ r, send_command env cmd = some r ∧ env.outcome = IpcOutcome.ok r ∧
        env.socketExists = true) := by
  cases hs : env.socketExists with
  | false => simp [send_command, hs]
  | true =>
    cases ho : env.outcome with
    | timeout => simp [send_command, hs, ho]
    | ioError => simp [send_command, hs, ho]
    | noData => simp [send_command, hs, ho]
    | parseError => simp [send_command, hs, ho]
    | ok r => simp [send_command, hs, ho]

/-- okResp is a concrete parsed IPC response with the success marker. -/
def okResp : MPVResponse := { error := some "success", data := none }

/-- okIPC is a concrete IPC environment with a socket and a parsed
response. -/
def okIPC : IPCEnv := { socketExists := true, outcome := IpcOutcome.ok okResp }

/-- noSockIPC is a concrete IPC environment whose socket path does not
exist. -/
def noSockIPC : IPCEnv := { socketExists := false, outcome := IpcOutcome.timeout }

/-- C7 witness: the statement applied to a concrete environment without
a socket and to one with a successfully parsed response. -/
theorem C7_send_command_witness :
    send_command noSockIPC [] = none ∧
    (send_command okIPC [] = none ∨
      ∃ r, send_command okIPC [] = some r ∧ okIPC.outcome = IpcOutcome.ok r ∧
        okIPC.socketExists = true) :=
  ⟨(C7_send_command noSockIPC []).1 rfl, (C7_send_command okIPC []).2.2.2.2.2⟩

/-- C8 counterexample: with no matching HDMI line in the enumerated
output, the detector returns the fallback identifier alsa/default, not
none, refuting the claim that absence of a match yields none and that an
identifier is returned only when some line matches. -/
theorem C8_counterexample :
    detect_hdmi_audio { raises := false, stdout := "card0\nfoo" } = some "alsa/default" ∧
    lineMatchesHdmi "card0" = false ∧ lineMatchesHdmi "foo" = false := by
  decide

/-- detectScan stops at the first enumerated line that matches the HDMI
criteria, is not a four-space-indented continuation, and strips to
nonempty text; otherwise it falls through to alsa/default. -/
theorem detectScan_characterization (lines : List String) :
    detectScan lines =
      some (match lines.find? goodHdmiLine with
            | some l => "alsa/" ++ stripStr l
            | none => "alsa/default") := by
  induction lines with
  | nil => simp [detectScan]
  | cons line rest ih =>
    by_cases hm : lineMatchesHdmi line
    · by_cases hi : startsWithFourSpaces line
      · simp [detectScan, hm, hi, goodHdmiLine, List.find?, ih]
      · by_cases he : stripStr line = ""
        · have he2 : (stripStr line == "") = true := beq_iff_eq.mpr he
          simp [detectScan, hm, hi, he, he2, goodHdmiLine, List.find?, bne, ih]
        · have he2 : (stripStr line == "") = false := beq_eq_false_iff_ne.mpr he
          simp [detectScan, hm, hi, he, he2, goodHdmiLine, List.find?, bne]
    · simp [detectScan, hm, goodHdmiLine, List.find?, ih]

/-- C8 amended: the detector returns none exactly on an error or the
enumeration timeout; otherwise, when some enumerated line matches the
HDMI criteria (case-insensitive vc4hdmi or hdmi), is not a
four-space-indented continuation and strips to nonempty text, it returns
that stripped line prefixed with alsa/, and with no such line it returns
the fallback alsa/default. -/
theorem C8_detect (env : DetectEnv) :
    (env.raises = true → detect_hdmi_audio env = none) ∧
    (env.raises = false →
      detect_hdmi_audio env =
        some (match (splitChar '\n' env.stdout).find? goodHdmiLine with
              | some l => "alsa/" ++ stripStr l
              | none => "alsa/default")) := by
  constructor
  · intro h
    simp [detect_hdmi_audio, h]
  · intro h
    simp [detect_hdmi_audio, h, detectScan_characterization]

/-- C8 witness: the amended statement applied to an erroring enumeration
and to one listing a vc4hdmi device. -/
theorem C8_detect_witness :
    detect_hdmi_audio { raises := true, stdout := "" } = none ∧
    detect_hdmi_audio { raises := false, stdout := "x\nvc4hdmi" } =
      some (match (splitChar '\n' "x\nvc4hdmi").find? goodHdmiLine with
            | some l => "alsa/" ++ stripStr l
            | none => "alsa/default") :=
  ⟨(C8_detect { raises := true, stdout := "" }).1 rfl,
    (C8_detect { raises := false, stdout := "x\nvc4hdmi" }).2 rfl⟩

/-- C9 counterexample: play rejects a nonexistent target before
attempting playback, returning false with no spawn and no IPC, while the
identical call with the file present succeeds, refuting the claim that
the controller performs no path validation of its own. -/
theorem C9_counterexample :
    (play (initState "m" "auto") "a.mp4" missingEnv).ret = false ∧
    (play (initState "m" "auto") "a.mp4" missingEnv).spawned = false ∧
    (play (initState "m" "auto") "a.mp4" missingEnv).sends = 0 ∧
    (play (initState "m" "auto") "a.mp4" readyEnv).ret = true := by
  decide

/-- C9 amended: the controller validates existence of the play target
itself: whenever the target path does not exist, play returns false
before attempting playback, spawning nothing, sending nothing, and
leaving the state untouched (the HTTP layer additionally validates paths
upstream). -/
theorem C9_play_validates_path (s : ControllerState) (p : String) (env : PlayEnv)
    (h : env.fileExists = false) :
    (play s p env).ret = false ∧ (play s p env).spawned = false ∧
    (play s p env).sends = 0 ∧ (play s p env).st = s := by
  simp [play, h]

/-- C9 witness: the amended statement applied to the initial state and a
missing target. -/
theorem C9_play_validates_path_witness :
    (play (initState "m" "auto") "a.mp4" missingEnv).ret = false ∧
    (play (initState "m" "auto") "a.mp4" missingEnv).spawned = false ∧
    (play (initState "m" "auto") "a.mp4" missingEnv).sends = 0 ∧
    (play (initState "m" "auto") "a.mp4" missingEnv).st = initState "m" "auto" :=
  C9_play_validates_path (initState "m" "auto") "a.mp4" missingEnv rfl

/-- C10: when a process handle is held but the child has already exited,
the first get_status call reports the stale pre-death state string with
position 0 and not paused, while internally tearing down the handle and
forcing the controller state to Stopped; only a subsequent get_status
call reports stopped. -/
theorem C10_stale_status (s : ControllerState) (p : Nat) (env env2 : StatusEnv)
    (hp : s.process = some p) (hd : env.procAlive = false) :
    (get_status s env).snap.state = s.state.value ∧
    (get_status s env).snap.position = 0 ∧
    (get_status s env).snap.is_paused = false ∧
    (get_status s env).st.state = PlayerState.stopped ∧
    (get_status s env).st.process = none ∧
    (get_status (get_status s env).st env2).snap.state = "stopped" := by
  refine ⟨?_, ?_, ?_, ?_, ?_, ?_⟩ <;>
    simp [get_status, is_running, hp, hd, cleanup_process, PlayerState.value]

/-- C10 witness: the statement applied to the mid-playback state s50
whose child has died: the first snapshot still says playing, the second
says stopped. -/
theorem C10_stale_status_witness :
    (get_status s50 deadStatusEnv).snap.state = s50.state.value ∧
    (get_status s50 deadStatusEnv).snap.position = 0 ∧
    (get_status s50 deadStatusEnv).snap.is_paused = false ∧
    (get_status s50 deadStatusEnv).st.state = PlayerState.stopped ∧
    (get_status s50 deadStatusEnv).st.process = none ∧
    (get_status (get_status s50 deadStatusEnv).st deadStatusEnv).snap.state = "stopped" :=
  C10_stale_status s50 1 deadStatusEnv deadStatusEnv rfl rfl

end MPV
